import Mathlib

/-!
Verification of the description-validation and retry pipeline of
`ollama-description-writer` (`src/description_generator/validation.py`,
`src/description_generator/f5xc_compat.py`, `src/description_generator/config.py`).

Text is embedded as `List Char`; Python `re` matching with `\b` word
boundaries and `re.IGNORECASE` is embedded by explicit case-folded
scanning with word-boundary checks, which agrees with the Python
semantics on the ASCII rule tables used by the program.
-/

set_option maxRecDepth 10000

abbrev Str := List Char

/-- Python `\w` on the ASCII texts used here: letters, digits, underscore. -/
def isWordChar (c : Char) : Bool := c.isAlphanum || c == '_'

/-- Case-insensitive prefix test (both sides folded with `Char.toLower`). -/
def lowerIsPrefixOf : Str → Str → Bool
  | [], _ => true
  | _ :: _, [] => false
  | p :: ps, t :: ts => (p.toLower == t.toLower) && lowerIsPrefixOf ps ts

/-- After a match of `pat` at the head of `text`, is there a `\b` word
boundary (end of string, or a non-word character)?  All rule-table
patterns end in a word character, so this is the Python condition. -/
def boundaryAfter (pat text : Str) : Bool :=
  match text.drop pat.length with
  | [] => true
  | c :: _ => !isWordChar c

/-- `\bpat\b` matches at the head of `text`, where `prev` is the character
just before `text` (none at string start).  All rule-table patterns start
in a word character, so the left boundary is just `prev` non-word. -/
def bdMatchAt (prev : Option Char) (pat text : Str) : Bool :=
  (match prev with | none => true | some c => !isWordChar c)
    && lowerIsPrefixOf pat text && boundaryAfter pat text

/-- `re.search` of a `\b`-delimited case-insensitive literal pattern. -/
def bdSearch (pat : Str) : Option Char → Str → Bool
  | prev, [] => bdMatchAt prev pat []
  | prev, c :: rest => bdMatchAt prev pat (c :: rest) || bdSearch pat (some c) rest

/-- `re.search(re.compile(r'\b<pat>\b', re.IGNORECASE), text)` as a Bool. -/
def reSearch (pat text : Str) : Bool := bdSearch pat none text

/-- `re.match(re.compile(r'^<pat>\b', re.IGNORECASE), text)`:
anchored at the start, word boundary after. -/
def startMatch (pat text : Str) : Bool :=
  lowerIsPrefixOf pat text && boundaryAfter pat text

/-- Python `str.strip()`: drop leading whitespace. -/
def lstrip (l : Str) : Str := l.dropWhile Char.isWhitespace

/-- Python `str.strip()`: drop trailing whitespace. -/
def rstrip (l : Str) : Str := (l.reverse.dropWhile Char.isWhitespace).reverse

/-- Python `str.strip()`. -/
def pyStrip (l : Str) : Str := rstrip (lstrip l)

/-- Helper for `countWords`: `inWord` records whether the previous
character was part of a word. -/
def countWordsGo : Str → Bool → Nat
  | [], _ => 0
  | c :: rest, inWord =>
    if c.isWhitespace then countWordsGo rest false
    else (if inWord then 0 else 1) + countWordsGo rest true

/-- `len(content.split())`: number of maximal whitespace-free runs. -/
def countWords (l : Str) : Nat := countWordsGo l false

/-- Python `str.lower()` (ASCII texts). -/
def lowerStr (l : Str) : Str := l.map Char.toLower

/-! ## Rule tables (`DescriptionValidator` class constants, validation.py) -/

/-- `DescriptionValidator.BANNED_TERMS`: the literal inside each
`r'\b...\b'` pattern, in source order. -/
def BANNED_TERMS : List Str :=
  (["F5", "XC", "F5XC", "Distributed Cloud",
    "BIG-IP", "NGINX", "Volterra",
    "world-class", "market-leading", "cutting-edge",
    "next-generation", "state-of-the-art", "seamless",
    "robust", "powerful", "comprehensive",
    "innovative", "scalable", "flexible",
    "simplifies", "streamlines", "empowers",
    "unparalleled", "ultimate", "superior",
    "best", "worst", "most", "least",
    "fastest", "slowest", "easiest",
    "in order to", "able to", "helps to",
    "allows you to", "enables you to",
    "designed to", "used to",
    "API", "REST", "Endpoint"] : List String).map String.toList

/-- `DescriptionValidator.BANNED_VERB_STARTS`: the literal inside each
`r'^...\b'` pattern, in source order. -/
def BANNED_VERB_STARTS : List Str :=
  (["Configure", "Manage", "Create", "Delete",
    "Update", "Get", "Set", "Enable",
    "Disable", "Add", "Remove", "Edit",
    "Modify", "Define", "Specify", "Select",
    "Use", "Apply", "View", "List",
    "This", "The", "A", "An"] : List String).map String.toList

/-- `DescriptionValidator.SELF_REFERENTIAL`, in source order. -/
def SELF_REFERENTIAL : List Str :=
  (["this field", "this property", "this setting",
    "this option", "this parameter", "this value",
    "the field", "the property", "the setting",
    "specifies the", "defines the", "sets the",
    "contains the", "holds the", "stores the"] : List String).map String.toList

/-! ## Data model (models.py, config.py) -/

/-- `DescriptionTier` enum. -/
inductive DescriptionTier
  | short
  | medium
  | long
deriving DecidableEq, Repr

/-- `TierConfig` model (pydantic fields; `structure` renamed, keyword). -/
structure TierConfig where
  min_chars : Nat
  max_chars : Nat
  max_tokens : Nat
  word_budget : String
  structure_hint : String
deriving DecidableEq, Repr

/-- `TIER_CONFIGS` / `get_tier_config` (config.py). -/
def get_tier_config : DescriptionTier → TierConfig
  | .short => ⟨35, 60, 25, "5-10 words", "Single concise noun phrase"⟩
  | .medium => ⟨100, 150, 60, "15-25 words", "1-2 complete sentences"⟩
  | .long => ⟨350, 500, 200, "55-80 words", "2-3 focused paragraphs"⟩

/-- One entry of a `ValidationResult.errors` / `.warnings` list.  Each
constructor corresponds to one `append` site in `validate`, carrying the
data interpolated into the message string. -/
inductive VMsg
  | bannedTerm (pat : Str)
  | startsVerb (pat : Str)
  | selfRef (pat : Str)
  | tooShort (charCount minChars : Nat)
  | tooLong (charCount maxChars : Nat)
  | tooFewWords (wordCount minWords : Nat)
  | circularDef (fieldName : Str)
  | incompleteThought
deriving DecidableEq, Repr

/-- `ValidationResult` dataclass. -/
structure ValidationResult where
  is_valid : Bool
  tier : DescriptionTier
  content : Str
  char_count : Nat
  word_count : Nat
  errors : List VMsg
  warnings : List VMsg
deriving DecidableEq, Repr

/-! ## The five validation layers (`DescriptionValidator.validate`) -/

/-- Layer 1: one error per banned pattern found anywhere in content. -/
def bannedErrors (content : Str) : List VMsg :=
  BANNED_TERMS.filterMap fun p =>
    if reSearch p content then some (.bannedTerm p) else none

/-- Layer 1b: one warning per banned leading verb/article matching at the
start of content. -/
def verbWarnings (content : Str) : List VMsg :=
  BANNED_VERB_STARTS.filterMap fun p =>
    if startMatch p content then some (.startsVerb p) else none

/-- Layer 2: one warning per self-referential pattern found anywhere. -/
def selfRefWarnings (content : Str) : List VMsg :=
  SELF_REFERENTIAL.filterMap fun p =>
    if reSearch p content then some (.selfRef p) else none

/-- Layer 3, character part: `if char_count < min ... elif char_count > max`. -/
def lengthErrors (charCount : Nat) (config : TierConfig) : List VMsg :=
  if charCount < config.min_chars then [.tooShort charCount config.min_chars]
  else if charCount > config.max_chars then [.tooLong charCount config.max_chars]
  else []

/-- Layer 3, word part: `if word_count < 3`. -/
def wordErrors (wordCount : Nat) : List VMsg :=
  if wordCount < 3 then [.tooFewWords wordCount 3] else []

/-- Layer 4 condition: lowercased content starts with or equals the
normalized (lowercased, `_`/`-` mapped to space) field name.  Note the
content itself is only lowercased, not `_`/`-`-normalized. -/
def normalizeName (f : Str) : Str :=
  (lowerStr f).map fun c => if c = '_' || c = '-' then ' ' else c

/-- Layer 4 circular-definition condition on (stripped) content. -/
def circCond (content f : Str) : Bool :=
  let fieldLower := normalizeName f
  let contentLower := lowerStr content
  fieldLower.isPrefixOf contentLower || contentLower == fieldLower

/-- Layer 4: guarded by Python truthiness of `field_name`. -/
def circErrors (content : Str) (fieldName : Option Str) : List VMsg :=
  match fieldName with
  | none => []
  | some f =>
    if f = [] then []
    else if circCond content f then [.circularDef f] else []

/-- `INCOMPLETE_ENDINGS` local list of `_is_complete_thought`. -/
def INCOMPLETE_ENDINGS : List Str :=
  ([" and", " or", " but", " with", " for", " to",
    " the", " a", " an", " in", " on", " at"] : List String).map String.toList

/-- `DescriptionValidator._is_complete_thought`. -/
def isCompleteThought (content : Str) : Bool :=
  let content := pyStrip content
  if content.length < 10 then false
  else if INCOMPLETE_ENDINGS.any (fun e => e.isSuffixOf (lowerStr content)) then false
  else
    match content with
    | [] => true
    | c :: _ => !c.isLower

/-- Layer 5: warning when the complete-thought heuristic fails. -/
def thoughtWarnings (content : Str) : List VMsg :=
  if isCompleteThought content then [] else [.incompleteThought]

/-- `DescriptionValidator.validate` (strict = the validator's
`strict_mode`; `fieldName = none` models Python `field_name=None`). -/
def validate (content : Str) (tier : DescriptionTier)
    (fieldName : Option Str) (strict : Bool) : ValidationResult :=
  let c := pyStrip content
  let charCount := c.length
  let wordCount := countWords c
  let config := get_tier_config tier
  let errs := bannedErrors c ++ lengthErrors charCount config
      ++ wordErrors wordCount ++ circErrors c fieldName
  let warns := verbWarnings c ++ selfRefWarnings c ++ thoughtWarnings c
  let errsFinal := if strict then errs ++ warns else errs
  let warnsFinal : List VMsg := if strict then [] else warns
  { is_valid := errsFinal.isEmpty
    tier := tier
    content := c
    char_count := charCount
    word_count := wordCount
    errors := errsFinal
    warnings := warnsFinal }

/-- `BatchValidationResult` dataclass. -/
structure BatchValidationResult where
  short : Option ValidationResult := none
  medium : Option ValidationResult := none
  long : Option ValidationResult := none
deriving DecidableEq, Repr

namespace BatchValidationResult

/-- `[r for r in [self.short, self.medium, self.long] if r]`. -/
def present (b : BatchValidationResult) : List ValidationResult :=
  [b.short, b.medium, b.long].filterMap id

/-- `BatchValidationResult.all_valid` property. -/
def all_valid (b : BatchValidationResult) : Bool :=
  b.present.all (·.is_valid)

/-- `BatchValidationResult.valid_count` property. -/
def valid_count (b : BatchValidationResult) : Nat :=
  b.present.countP (·.is_valid)

/-- `BatchValidationResult.total_count` property. -/
def total_count (b : BatchValidationResult) : Nat :=
  b.present.length

end BatchValidationResult

/-- One tier slot of `validate_batch`: present in the result exactly when
the key is in the mapping with a Python-truthy (non-empty) value. -/
def batchSlot (descriptions : List (Str × Str)) (key : Str)
    (tier : DescriptionTier) (fieldName : Option Str) (strict : Bool) :
    Option ValidationResult :=
  match descriptions.lookup key with
  | none => none
  | some v => if v = [] then none else some (validate v tier fieldName strict)

/-- `DescriptionValidator.validate_batch`; the input dict is embedded as
an association list with distinct keys (`lookup` = dict access). -/
def validate_batch (descriptions : List (Str × Str))
    (fieldName : Option Str) (strict : Bool) : BatchValidationResult :=
  { short := batchSlot descriptions "short".toList .short fieldName strict
    medium := batchSlot descriptions "medium".toList .medium fieldName strict
    long := batchSlot descriptions "long".toList .long fieldName strict }

/-! ## f5xc compatibility layer (f5xc_compat.py) -/

/-- `F5XC_SYNONYMS` dict, as its (insertion-ordered) item list. -/
def F5XC_SYNONYMS : List (Str × Str) :=
  ([("API endpoint", "service interface"),
    ("REST API", "web service"),
    ("JSON object", "data structure"),
    ("HTTP request", "service call"),
    ("HTTP response", "service response"),
    ("seamless integration", "compatible connection"),
    ("robust solution", "reliable system"),
    ("powerful feature", "capability"),
    ("comprehensive suite", "tool set"),
    ("scalable architecture", "distributed design"),
    ("Configure", "Configuration for"),
    ("Manage", "Management of"),
    ("Enable", "Control to enable"),
    ("Disable", "Control to disable"),
    ("Create", "Creation of"),
    ("Delete", "Deletion of"),
    ("Update", "Update to")] : List (String × String)).map
    fun pr => (pr.1.toList, pr.2.toList)

/-- `F5XC_BANNED_VERB_STARTS` list (f5xc_compat.py), in source order. -/
def F5XC_BANNED_VERB_STARTS : List Str :=
  (["Configure", "Manage", "Create", "Delete", "Update", "Get", "Set",
    "Enable", "Disable", "Add", "Remove", "Edit", "Modify", "Define",
    "Specify", "Select", "Use", "Apply", "View", "List", "Show",
    "Enter", "Input", "Provide", "Submit", "Save", "Load", "Read",
    "Write", "Execute", "Run", "Start", "Stop", "Restart"] : List String).map
    String.toList

/-- Fuel-driven left-to-right global case-insensitive substring
replacement: `re.sub(re.escape(pat), repl, text, flags=IGNORECASE)`.
Every step consumes at least one input character, so `fuel =
text.length` reproduces the Python result. -/
def subCI : Nat → Str → Str → Str → Str
  | 0, _, _, text => text
  | _ + 1, _, _, [] => []
  | fuel + 1, pat, repl, c :: rest =>
    if lowerIsPrefixOf pat (c :: rest) then
      repl ++ subCI fuel pat repl ((c :: rest).drop pat.length)
    else c :: subCI fuel pat repl rest

/-- Case-insensitive global replacement of one synonym pair. -/
def replaceCI (pat repl text : Str) : Str := subCI text.length pat repl text

/-- `apply_synonyms` (f5xc_compat.py). -/
def apply_synonyms (text : Str) : Str :=
  F5XC_SYNONYMS.foldl (fun acc pr => replaceCI pr.1 pr.2 acc) text

/-- Does `pat` occur (case-insensitively) anywhere in `text`? -/
def occursCI (pat : Str) : Str → Bool
  | [] => lowerIsPrefixOf pat []
  | c :: rest => lowerIsPrefixOf pat (c :: rest) || occursCI pat rest

/-- Python `str.capitalize()` (ASCII texts). -/
def pyCapitalize : Str → Str
  | [] => []
  | c :: cs => c.toUpper :: cs.map Char.toLower

/-- Python `text.replace(old, new, 1)`: replace the leftmost exact
occurrence only. -/
def replace1 (old new : Str) : Str → Str
  | [] => []
  | c :: rest =>
    if old.isPrefixOf (c :: rest) then new ++ (c :: rest).drop old.length
    else c :: replace1 old new rest

/-- The verb loop of `noun_first_transform`: first matching verb wins. -/
def nounFirstGo : List Str → Str → Str
  | [], text => text
  | v :: vs, text =>
    if (v ++ [' ']).isPrefixOf text then
      match F5XC_SYNONYMS.lookup v with
      | some syn => replace1 (v ++ [' ']) (syn ++ [' ']) text
      | none => pyCapitalize (text.drop (v.length + 1)) ++ " configuration".toList
    else nounFirstGo vs text

/-- `noun_first_transform` (f5xc_compat.py). -/
def noun_first_transform (text : Str) : Str :=
  nounFirstGo F5XC_BANNED_VERB_STARTS text

/-- Does `text` start with some f5xc banned verb followed by a space? -/
def startsWithBannedVerb (text : Str) : Bool :=
  F5XC_BANNED_VERB_STARTS.any fun v => (v ++ [' ']).isPrefixOf text

/-! ## F5XCAdapter retry controller (f5xc_compat.py) -/

/-- The parsed tier-name-to-text mapping handled by the adapter. -/
abbrev ResultMap := List (Str × Str)

/-- `F5XCAdapter._post_process` (all values are strings here). -/
def post_process (result : ResultMap) : ResultMap :=
  result.map fun kv =>
    (kv.1, pyStrip (noun_first_transform (apply_synonyms kv.2)))

/-- The per-tier character limits shared by `_count_valid` and
`_validate_lengths`. -/
def F5XC_LIMITS : List (Str × Nat × Nat) :=
  [("short".toList, 35, 60), ("medium".toList, 100, 150),
   ("long".toList, 350, 500)]

/-- `F5XCAdapter._count_valid`: how many tiers are within character
limits (no other validation layer is consulted). -/
def count_valid (result : ResultMap) : Nat :=
  F5XC_LIMITS.foldl
    (fun count e =>
      match result.lookup e.1 with
      | some v => if e.2.1 ≤ v.length && v.length ≤ e.2.2 then count + 1 else count
      | none => count)
    0

/-- `F5XCAdapter._validate_lengths`. -/
def validate_lengths (result : ResultMap) : Bool :=
  F5XC_LIMITS.all fun e =>
    match result.lookup e.1 with
    | some v => !(decide (v.length < e.2.1) || decide (v.length > e.2.2))
    | none => true

/-- The retry loop of `F5XCAdapter.generate`.  `gf i` is the collaborator
call (`generate_raw`) of attempt `i` (`none` = parse failure; `if result:`
is Python truthiness, so an empty mapping is also skipped); the result
pairs the returned mapping with the number of attempts consumed. -/
def genLoop (gf : Nat → Option ResultMap) (strict : Bool) :
    Nat → Nat → Option ResultMap → Nat → Option ResultMap × Nat
  | i, 0, best, _ => (best, i)
  | i, remaining + 1, best, bestCount =>
    match gf i with
    | none => genLoop gf strict (i + 1) remaining best bestCount
    | some raw =>
      if raw = [] then genLoop gf strict (i + 1) remaining best bestCount
      else
      let result := post_process raw
      let validCount := count_valid result
      let best2 := if validCount > bestCount then some result else best
      let bestCount2 := if validCount > bestCount then validCount else bestCount
      if validCount = 3 then (some result, i + 1)
      else if strict && validate_lengths result then (some result, i + 1)
      else genLoop gf strict (i + 1) remaining best2 bestCount2

/-- `F5XCAdapter.generate` with `max_retries` attempts. -/
def f5xc_generate (gf : Nat → Option ResultMap) (maxRetries : Nat)
    (strict : Bool) : Option ResultMap × Nat :=
  genLoop gf strict 0 maxRetries none 0

/-- The five-layer score of a processed mapping (what the spec says the
retry controller computes in the loop). -/
def fiveLayerValidCount (result : ResultMap) : Nat :=
  (validate_batch result none false).valid_count

/-- The retry controller exactly as the spec's words describe it, for
comparison with `genLoop`: the attempt score is the five-layer Batch
Validator's `valid_count`, with early exit when it reaches the 3 expected
tiers. -/
def specRetryLoop (gf : Nat → Option ResultMap) (strict : Bool) :
    Nat → Nat → Option ResultMap → Nat → Option ResultMap × Nat
  | i, 0, best, _ => (best, i)
  | i, remaining + 1, best, bestCount =>
    match gf i with
    | none => specRetryLoop gf strict (i + 1) remaining best bestCount
    | some raw =>
      if raw = [] then specRetryLoop gf strict (i + 1) remaining best bestCount
      else
      let result := post_process raw
      let validCount := fiveLayerValidCount result
      let best2 := if validCount > bestCount then some result else best
      let bestCount2 := if validCount > bestCount then validCount else bestCount
      if validCount = 3 then (some result, i + 1)
      else if strict && validate_lengths result then (some result, i + 1)
      else specRetryLoop gf strict (i + 1) remaining best2 bestCount2

/-- The spec-described controller, packaged like `f5xc_generate`. -/
def spec_generate (gf : Nat → Option ResultMap) (maxRetries : Nat)
    (strict : Bool) : Option ResultMap × Nat :=
  specRetryLoop gf strict 0 maxRetries none 0

/-! ## Helper lemmas about `validate` -/

/-- The error list of `validate`, split by layer. -/
lemma validate_errors_eq (content : Str) (tier : DescriptionTier)
    (fieldName : Option Str) (strict : Bool) :
    (validate content tier fieldName strict).errors =
      (bannedErrors (pyStrip content)
          ++ lengthErrors (pyStrip content).length (get_tier_config tier)
          ++ wordErrors (countWords (pyStrip content))
          ++ circErrors (pyStrip content) fieldName)
        ++ (if strict then
              verbWarnings (pyStrip content) ++ selfRefWarnings (pyStrip content)
                ++ thoughtWarnings (pyStrip content)
            else []) := by
  cases strict <;> simp [validate]

lemma validate_is_valid_eq (content : Str) (tier : DescriptionTier)
    (fieldName : Option Str) (strict : Bool) :
    (validate content tier fieldName strict).is_valid
      = (validate content tier fieldName strict).errors.isEmpty := rfl

lemma validate_char_count_eq (content : Str) (tier : DescriptionTier)
    (fieldName : Option Str) (strict : Bool) :
    (validate content tier fieldName strict).char_count = (pyStrip content).length := rfl

lemma validate_word_count_eq (content : Str) (tier : DescriptionTier)
    (fieldName : Option Str) (strict : Bool) :
    (validate content tier fieldName strict).word_count
      = countWords (pyStrip content) := rfl

/-- Everything in layer 1 output is a banned-term message. -/
lemma bannedErrors_shape {x : VMsg} {c : Str} (h : x ∈ bannedErrors c) :
    ∃ p, x = VMsg.bannedTerm p := by
  simp only [bannedErrors, List.mem_filterMap] at h
  obtain ⟨p, -, hp⟩ := h
  by_cases hr : reSearch p c = true
  · simp only [if_pos hr] at hp
    exact ⟨p, (Option.some.inj hp).symm⟩
  · simp [hr] at hp

/-- Everything in layer 1b output is a verb-start message. -/
lemma verbWarnings_shape {x : VMsg} {c : Str} (h : x ∈ verbWarnings c) :
    ∃ p, x = VMsg.startsVerb p := by
  simp only [verbWarnings, List.mem_filterMap] at h
  obtain ⟨p, -, hp⟩ := h
  by_cases hr : startMatch p c = true
  · simp only [if_pos hr] at hp
    exact ⟨p, (Option.some.inj hp).symm⟩
  · simp [hr] at hp

/-- Everything in layer 2 output is a self-reference message. -/
lemma selfRefWarnings_shape {x : VMsg} {c : Str} (h : x ∈ selfRefWarnings c) :
    ∃ p, x = VMsg.selfRef p := by
  simp only [selfRefWarnings, List.mem_filterMap] at h
  obtain ⟨p, -, hp⟩ := h
  by_cases hr : reSearch p c = true
  · simp only [if_pos hr] at hp
    exact ⟨p, (Option.some.inj hp).symm⟩
  · simp [hr] at hp

/-- Everything in layer 4 output is a circular-definition message, and it
appears only under the layer's guard conditions. -/
lemma circErrors_shape {x : VMsg} {c : Str} {fn : Option Str}
    (h : x ∈ circErrors c fn) :
    ∃ f, fn = some f ∧ x = VMsg.circularDef f ∧ f ≠ [] ∧ circCond c f = true := by
  match fn with
  | none => simp [circErrors] at h
  | some f =>
    refine ⟨f, rfl, ?_⟩
    by_cases h0 : f = []
    · simp [circErrors, h0] at h
    · by_cases hc : circCond c f = true
      · simp [circErrors, h0, hc] at h
        exact ⟨h, h0, hc⟩
      · simp [circErrors, h0, hc] at h

/-- Everything in layer 5 output is the incomplete-thought message. -/
lemma thoughtWarnings_shape {x : VMsg} {c : Str} (h : x ∈ thoughtWarnings c) :
    x = VMsg.incompleteThought := by
  by_cases hc : isCompleteThought c = true <;> simp [thoughtWarnings, hc] at h
  exact h

/-- Everything in the word-count layer output. -/
lemma wordErrors_shape {x : VMsg} {wc : Nat} (h : x ∈ wordErrors wc) :
    x = VMsg.tooFewWords wc 3 ∧ wc < 3 := by
  by_cases hw : wc < 3 <;> simp [wordErrors, hw] at h
  exact ⟨h, hw⟩

/-- Everything in the character-count layer output. -/
lemma lengthErrors_shape {x : VMsg} {cc : Nat} {cfg : TierConfig}
    (h : x ∈ lengthErrors cc cfg) :
    (x = VMsg.tooShort cc cfg.min_chars ∧ cc < cfg.min_chars)
      ∨ (x = VMsg.tooLong cc cfg.max_chars ∧ cc > cfg.max_chars) := by
  by_cases h1 : cc < cfg.min_chars
  · simp [lengthErrors, h1] at h
    exact Or.inl ⟨h, h1⟩
  · by_cases h2 : cc > cfg.max_chars
    · simp [lengthErrors, h1, h2] at h
      exact Or.inr ⟨h, h2⟩
    · simp [lengthErrors, h1, h2] at h

/-- Membership in `validate`'s error list, layer by layer. -/
lemma mem_validate_errors_iff {x : VMsg} {content : Str} {tier : DescriptionTier}
    {fieldName : Option Str} {strict : Bool} :
    x ∈ (validate content tier fieldName strict).errors ↔
      (x ∈ bannedErrors (pyStrip content)
        ∨ x ∈ lengthErrors (pyStrip content).length (get_tier_config tier)
        ∨ x ∈ wordErrors (countWords (pyStrip content))
        ∨ x ∈ circErrors (pyStrip content) fieldName
        ∨ (strict = true
            ∧ (x ∈ verbWarnings (pyStrip content)
              ∨ x ∈ selfRefWarnings (pyStrip content)
              ∨ x ∈ thoughtWarnings (pyStrip content)))) := by
  rw [validate_errors_eq]
  cases strict <;> simp [List.mem_append, or_assoc]

/-! ## Claim C2 -/

/-- A 40-character single word: inside the short band, hits no rule. -/
def c2content : Str := List.replicate 40 'x'

/-- C2 counterexample: content strictly inside the short band hitting no
banned-term, self-reference, or circular-definition condition, yet
invalid (the word-count layer fires: 1 word < 3). -/
theorem c2_counterexample :
    (35 < (pyStrip c2content).length ∧ (pyStrip c2content).length < 60)
    ∧ (∀ t ∈ BANNED_TERMS, reSearch t (pyStrip c2content) = false)
    ∧ (∀ p ∈ SELF_REFERENTIAL, reSearch p (pyStrip c2content) = false)
    ∧ circErrors (pyStrip c2content) none = []
    ∧ (validate c2content .short none false).is_valid = false := by decide

/-- C2 (amended): if the trimmed content's character count is strictly
within the tier band, the word count is at least 3, and no banned-term or
circular-definition condition matches, then non-strict `validate` returns
`is_valid = true`. -/
theorem c2_amended (content : Str) (tier : DescriptionTier) (fieldName : Option Str)
    (hlo : (get_tier_config tier).min_chars < (pyStrip content).length)
    (hhi : (pyStrip content).length < (get_tier_config tier).max_chars)
    (hwords : 3 ≤ countWords (pyStrip content))
    (hban : ∀ t ∈ BANNED_TERMS, reSearch t (pyStrip content) = false)
    (hcirc : circErrors (pyStrip content) fieldName = []) :
    (validate content tier fieldName false).is_valid = true := by
  rw [validate_is_valid_eq, List.isEmpty_iff, validate_errors_eq]
  have hb : bannedErrors (pyStrip content) = [] := by
    rw [bannedErrors, List.filterMap_eq_nil_iff]
    intro t ht
    simp [hban t ht]
  have hl : lengthErrors (pyStrip content).length (get_tier_config tier) = [] := by
    rw [lengthErrors, if_neg (by omega), if_neg (by omega)]
  have hw : wordErrors (countWords (pyStrip content)) = [] := by
    rw [wordErrors, if_neg (by omega)]
  simp [hb, hl, hw, hcirc]

/-- C2 witness: the amended theorem applied at spec Scenario 2. -/
theorem c2_amended_witness :
    (validate "Network routing configuration for traffic distribution".toList
      .short none false).is_valid = true :=
  c2_amended _ .short none (by decide) (by decide) (by decide) (by decide)
    (by decide)

/-! ## Claim C5 -/

/-- The circular-definition condition as the claim words it: BOTH the
subject and the content are normalized (lowercase, underscores and
hyphens mapped to spaces). -/
def specCircCond (content f : Str) : Bool :=
  let fieldNorm := normalizeName f
  let contentNorm := normalizeName content
  fieldNorm.isPrefixOf contentNorm || contentNorm == fieldNorm

def c5field : Str := "load_balancer".toList

def c5content : Str := "Load_balancer routes requests".toList

/-- C5 counterexample: under the claim's both-sides normalization the
condition holds (so the claim demands a circular-definition hard error),
but the code only lowercases the content, so the underscore survives and
no circular-definition error is appended (the only error is length). -/
theorem c5_counterexample :
    specCircCond (pyStrip c5content) c5field = true
    ∧ (validate c5content .short (some c5field) false).errors
        = [VMsg.tooShort 29 35] := by decide

/-- C5 (amended): the layer normalizes the subject (lowercase,
underscores/hyphens to spaces) but only lowercases the content; the hard
error is appended exactly when the subject is non-empty and the
lowercased content starts with or equals the normalized subject. -/
theorem c5_amended (content f : Str) (tier : DescriptionTier) (strict : Bool) :
    VMsg.circularDef f ∈ (validate content tier (some f) strict).errors ↔
      (f ≠ [] ∧ circCond (pyStrip content) f = true) := by
  rw [mem_validate_errors_iff]
  constructor
  · rintro (h | h | h | h | ⟨-, h | h | h⟩)
    · obtain ⟨p, hp⟩ := bannedErrors_shape h
      simp at hp
    · rcases lengthErrors_shape h with ⟨hp, -⟩ | ⟨hp, -⟩ <;> simp at hp
    · obtain ⟨hp, -⟩ := wordErrors_shape h
      simp at hp
    · obtain ⟨g, hg, hx, hne, hc⟩ := circErrors_shape h
      obtain rfl : f = g := Option.some.inj hg
      exact ⟨hne, hc⟩
    · obtain ⟨p, hp⟩ := verbWarnings_shape h
      simp at hp
    · obtain ⟨p, hp⟩ := selfRefWarnings_shape h
      simp at hp
    · have hp := thoughtWarnings_shape h
      simp at hp
  · rintro ⟨hne, hc⟩
    refine Or.inr (Or.inr (Or.inr (Or.inl ?_)))
    simp [circErrors, hne, hc]

/-! ## Claim C6 -/

/-- C6: strict inequality at the band boundaries.  A too-short error is
appended exactly when `char_count < min_chars`, a too-long error exactly
when `char_count > max_chars`, a too-few-words error exactly when
`word_count < 3`; content whose `char_count` equals `min_chars` or
`max_chars` receives no length error. -/
theorem c6_quality_metrics (content : Str) (tier : DescriptionTier)
    (fieldName : Option Str) (strict : Bool) :
    ((∃ a b, VMsg.tooShort a b ∈ (validate content tier fieldName strict).errors)
        ↔ (validate content tier fieldName strict).char_count
            < (get_tier_config tier).min_chars)
    ∧ ((∃ a b, VMsg.tooLong a b ∈ (validate content tier fieldName strict).errors)
        ↔ (validate content tier fieldName strict).char_count
            > (get_tier_config tier).max_chars)
    ∧ ((∃ a b, VMsg.tooFewWords a b ∈ (validate content tier fieldName strict).errors)
        ↔ (validate content tier fieldName strict).word_count < 3)
    ∧ (((validate content tier fieldName strict).char_count
            = (get_tier_config tier).min_chars
        ∨ (validate content tier fieldName strict).char_count
            = (get_tier_config tier).max_chars)
        → ∀ a b, ¬ VMsg.tooShort a b ∈ (validate content tier fieldName strict).errors
            ∧ ¬ VMsg.tooLong a b ∈ (validate content tier fieldName strict).errors) :=
  by
  have hminmax : (get_tier_config tier).min_chars ≤ (get_tier_config tier).max_chars := by
    cases tier <;> decide
  rw [validate_char_count_eq, validate_word_count_eq]
  have hshort : (∃ a b, VMsg.tooShort a b ∈ (validate content tier fieldName strict).errors)
      ↔ (pyStrip content).length < (get_tier_config tier).min_chars := by
    constructor
    · rintro ⟨a, b, h⟩
      rw [mem_validate_errors_iff] at h
      rcases h with h | h | h | h | ⟨-, h | h | h⟩
      · obtain ⟨p, hp⟩ := bannedErrors_shape h
        simp at hp
      · rcases lengthErrors_shape h with ⟨-, hlt⟩ | ⟨hp, -⟩
        · exact hlt
        · simp at hp
      · obtain ⟨hp, -⟩ := wordErrors_shape h
        simp at hp
      · obtain ⟨g, -, hx, -, -⟩ := circErrors_shape h
        simp at hx
      · obtain ⟨p, hp⟩ := verbWarnings_shape h
        simp at hp
      · obtain ⟨p, hp⟩ := selfRefWarnings_shape h
        simp at hp
      · have hp := thoughtWarnings_shape h
        simp at hp
    · intro hlt
      refine ⟨(pyStrip content).length, (get_tier_config tier).min_chars, ?_⟩
      rw [mem_validate_errors_iff]
      exact Or.inr (Or.inl (by simp [lengthErrors, hlt]))
  have hlong : (∃ a b, VMsg.tooLong a b ∈ (validate content tier fieldName strict).errors)
      ↔ (pyStrip content).length > (get_tier_config tier).max_chars := by
    constructor
    · rintro ⟨a, b, h⟩
      rw [mem_validate_errors_iff] at h
      rcases h with h | h | h | h | ⟨-, h | h | h⟩
      · obtain ⟨p, hp⟩ := bannedErrors_shape h
        simp at hp
      · rcases lengthErrors_shape h with ⟨hp, -⟩ | ⟨-, hgt⟩
        · simp at hp
        · exact hgt
      · obtain ⟨hp, -⟩ := wordErrors_shape h
        simp at hp
      · obtain ⟨g, -, hx, -, -⟩ := circErrors_shape h
        simp at hx
      · obtain ⟨p, hp⟩ := verbWarnings_shape h
        simp at hp
      · obtain ⟨p, hp⟩ := selfRefWarnings_shape h
        simp at hp
      · have hp := thoughtWarnings_shape h
        simp at hp
    · intro hgt
      refine ⟨(pyStrip content).length, (get_tier_config tier).max_chars, ?_⟩
      rw [mem_validate_errors_iff]
      refine Or.inr (Or.inl ?_)
      rw [lengthErrors, if_neg (by omega)]
      simp [hgt]
  have hwords : (∃ a b, VMsg.tooFewWords a b ∈ (validate content tier fieldName strict).errors)
      ↔ countWords (pyStrip content) < 3 := by
    constructor
    · rintro ⟨a, b, h⟩
      rw [mem_validate_errors_iff] at h
      rcases h with h | h | h | h | ⟨-, h | h | h⟩
      · obtain ⟨p, hp⟩ := bannedErrors_shape h
        simp at hp
      · rcases lengthErrors_shape h with ⟨hp, -⟩ | ⟨hp, -⟩ <;> simp at hp
      · exact (wordErrors_shape h).2
      · obtain ⟨g, -, hx, -, -⟩ := circErrors_shape h
        simp at hx
      · obtain ⟨p, hp⟩ := verbWarnings_shape h
        simp at hp
      · obtain ⟨p, hp⟩ := selfRefWarnings_shape h
        simp at hp
      · have hp := thoughtWarnings_shape h
        simp at hp
    · intro hlt
      refine ⟨countWords (pyStrip content), 3, ?_⟩
      rw [mem_validate_errors_iff]
      exact Or.inr (Or.inr (Or.inl (by simp [wordErrors, hlt])))
  refine ⟨hshort, hlong, hwords, ?_⟩
  intro heq a b
  constructor
  · intro hmem
    have := hshort.mp ⟨a, b, hmem⟩
    omega
  · intro hmem
    have := hlong.mp ⟨a, b, hmem⟩
    omega

/-! ## Claim C7 -/

/-- C7: any banned-term match anywhere in the (trimmed) content makes the
verdict invalid, for every tier, field name and strictness. -/
theorem c7_banned_invalid (content : Str) (tier : DescriptionTier)
    (fieldName : Option Str) (strict : Bool) (term : Str)
    (hmem : term ∈ BANNED_TERMS)
    (hhit : reSearch term (pyStrip content) = true) :
    (validate content tier fieldName strict).is_valid = false := by
  have hm : VMsg.bannedTerm term ∈ (validate content tier fieldName strict).errors := by
    rw [mem_validate_errors_iff]
    refine Or.inl ?_
    rw [bannedErrors, List.mem_filterMap]
    exact ⟨term, hmem, by simp [hhit]⟩
  rw [validate_is_valid_eq, List.isEmpty_eq_false]
  exact List.ne_nil_of_mem hm

/-- C7 witness: spec Scenario 1, the banned vendor term in a short
description. -/
theorem c7_witness :
    ("F5".toList ∈ BANNED_TERMS
      ∧ reSearch "F5".toList (pyStrip "F5 load balancer configuration".toList) = true)
    ∧ (validate "F5 load balancer configuration".toList .short none false).is_valid
        = false :=
  ⟨⟨by decide, by decide⟩,
    c7_banned_invalid "F5 load balancer configuration".toList .short none false
      "F5".toList (by decide) (by decide)⟩

/-! ## Claim C9 -/

/-- A batch slot is filled exactly when the key maps to a non-empty text. -/
lemma batchSlot_isSome (d : List (Str × Str)) (k : Str) (t : DescriptionTier)
    (f : Option Str) (s : Bool) :
    (batchSlot d k t f s).isSome = true ↔ ∃ v, d.lookup k = some v ∧ v ≠ [] := by
  rcases hl : d.lookup k with - | v
  · simp [batchSlot, hl]
  · by_cases hv : v = [] <;> simp [batchSlot, hl, hv]

/-- C9: the batch result has a verdict for a tier exactly when that tier
name is present in the input mapping with a non-empty text. -/
theorem c9_batch_presence (descriptions : List (Str × Str))
    (fieldName : Option Str) (strict : Bool) :
    ((validate_batch descriptions fieldName strict).short.isSome = true
      ↔ ∃ v, descriptions.lookup "short".toList = some v ∧ v ≠ [])
    ∧ ((validate_batch descriptions fieldName strict).medium.isSome = true
      ↔ ∃ v, descriptions.lookup "medium".toList = some v ∧ v ≠ [])
    ∧ ((validate_batch descriptions fieldName strict).long.isSome = true
      ↔ ∃ v, descriptions.lookup "long".toList = some v ∧ v ≠ []) :=
  ⟨batchSlot_isSome descriptions "short".toList .short fieldName strict,
   batchSlot_isSome descriptions "medium".toList .medium fieldName strict,
   batchSlot_isSome descriptions "long".toList .long fieldName strict⟩

/-! ## Claim C10 -/

/-- C10: every batch verdict has `valid_count ≤ total_count`, `all_valid`
holds exactly when `valid_count = total_count`, and the empty input gives
counts 0/0 with `all_valid` vacuously true. -/
theorem c10_batch_count_invariants (descriptions : List (Str × Str))
    (fieldName : Option Str) (strict : Bool) :
    (validate_batch descriptions fieldName strict).valid_count
        ≤ (validate_batch descriptions fieldName strict).total_count
    ∧ ((validate_batch descriptions fieldName strict).all_valid = true
        ↔ (validate_batch descriptions fieldName strict).valid_count
            = (validate_batch descriptions fieldName strict).total_count)
    ∧ (validate_batch [] fieldName strict).valid_count = 0
    ∧ (validate_batch [] fieldName strict).total_count = 0
    ∧ (validate_batch [] fieldName strict).all_valid = true := by
  refine ⟨?_, ?_, rfl, rfl, rfl⟩
  · simp only [BatchValidationResult.valid_count, BatchValidationResult.total_count]
    exact List.countP_le_length _
  · simp only [BatchValidationResult.all_valid, BatchValidationResult.valid_count,
      BatchValidationResult.total_count, List.all_eq_true, List.countP_eq_length]

/-! ## Claim C3 -/

/-- If `pat` does not occur in `t`, one substitution pass is the identity
(for any fuel). -/
lemma subCI_no_occ (pat repl : Str) :
    ∀ (t : Str) (fuel : Nat), occursCI pat t = false → subCI fuel pat repl t = t := by
  intro t
  induction t with
  | nil =>
    intro fuel h
    cases fuel <;> rfl
  | cons c rest ih =>
    intro fuel h
    rw [occursCI, Bool.or_eq_false_iff] at h
    cases fuel with
    | zero => rfl
    | succ f =>
      rw [subCI, if_neg (by simp [h.1])]
      rw [ih f h.2]

/-- A whole synonym pass is the identity on a text in which no rule's
pattern occurs. -/
lemma foldl_no_occ : ∀ (rules : List (Str × Str)) (t : Str),
    (∀ pr ∈ rules, occursCI pr.1 t = false) →
    rules.foldl (fun acc pr => replaceCI pr.1 pr.2 acc) t = t := by
  intro rules
  induction rules with
  | nil => intro t _; rfl
  | cons r rs ih =>
    intro t h
    have h1 : replaceCI r.1 r.2 t = t :=
      subCI_no_occ r.1 r.2 t t.length (h r (by simp))
    rw [List.foldl_cons]
    rw [show replaceCI r.1 r.2 t = t from h1]
    exact ih t fun pr hpr => h pr (by simp [hpr])

/-- No pattern of the synonym table occurs in `t`. -/
def noSynOccurs (t : Str) : Bool := F5XC_SYNONYMS.all fun pr => !occursCI pr.1 t

/-- C3 counterexample: synonym substitution is not idempotent.  The rule
`Update -> "Update to"` re-contains its own pattern, so a second pass of
`apply_synonyms` changes `"Update to settings"` into
`"Update to to settings"`. -/
theorem c3_counterexample :
    apply_synonyms (apply_synonyms "Update settings".toList)
      ≠ apply_synonyms "Update settings".toList := by decide

/-- C3 (amended): synonym substitution is not idempotent in general
(rules whose replacement re-contains a pattern — Manage, Enable, Disable,
Update — re-trigger); a second application is the identity whenever the
once-substituted text contains no pattern occurrence. -/
theorem c3_amended (t : Str) (h : noSynOccurs (apply_synonyms t) = true) :
    apply_synonyms (apply_synonyms t) = apply_synonyms t := by
  have h2 : ∀ pr ∈ F5XC_SYNONYMS, occursCI pr.1 (apply_synonyms t) = false := by
    intro pr hpr
    have h3 := (List.all_eq_true.mp h) pr hpr
    simpa using h3
  exact foldl_no_occ F5XC_SYNONYMS (apply_synonyms t) h2

/-- C3 witness: a once-substituted verb-first text in which no pattern
remains, so the second pass is the identity. -/
theorem c3_amended_witness :
    noSynOccurs (apply_synonyms "Configure the gateway".toList) = true
    ∧ apply_synonyms (apply_synonyms "Configure the gateway".toList)
        = apply_synonyms "Configure the gateway".toList :=
  ⟨by decide, c3_amended "Configure the gateway".toList (by decide)⟩

/-! ## Claim C8 -/

/-- The retry loop with a collaborator that never parses: the best result
stays untouched and every attempt is consumed. -/
lemma genLoop_all_none (gf : Nat → Option ResultMap) (strict : Bool)
    (h : ∀ i, gf i = none) :
    ∀ (remaining i : Nat) (best : Option ResultMap) (bc : Nat),
      genLoop gf strict i remaining best bc = (best, i + remaining) := by
  intro remaining
  induction remaining with
  | zero => intro i best bc; simp [genLoop]
  | succ r ih =>
    intro i best bc
    rw [genLoop, h i]
    rw [ih (i + 1) best bc]
    have harith : i + 1 + r = i + (r + 1) := by omega
    rw [harith]

/-- C8: if every attempt fails to parse, `generate` returns the explicit
empty outcome `none` (with all `maxRetries` attempts consumed), not an
exception — distinguishable from a returned mapping failing validation. -/
theorem c8_no_parse_returns_none (gf : Nat → Option ResultMap)
    (maxRetries : Nat) (strict : Bool) (h : ∀ i, gf i = none) :
    f5xc_generate gf maxRetries strict = (none, maxRetries) := by
  rw [f5xc_generate, genLoop_all_none gf strict h maxRetries 0 none 0]
  rw [Nat.zero_add]

/-- C8 witness: spec Scenario 5 with a retry budget of 3. -/
theorem c8_witness :
    f5xc_generate (fun _ => none) 3 false = (none, 3) :=
  c8_no_parse_returns_none (fun _ => none) 3 false fun _ => rfl

/-! ## Claim C4 -/

/-- If `p` restricted to the length of `a` is not a prefix of `a`, then
`p` is not a prefix of `a ++ b` either (the mismatch is inside `a`). -/
lemma take_isPrefixOf_false : ∀ (p a b : Str),
    (p.take a.length).isPrefixOf a = false → p.isPrefixOf (a ++ b) = false := by
  intro p
  induction p with
  | nil =>
    intro a b h
    simp [List.isPrefixOf] at h
  | cons x xs ih =>
    intro a b h
    cases a with
    | nil => simp [List.isPrefixOf] at h
    | cons y ys =>
      rw [List.length_cons, List.take_succ_cons, List.isPrefixOf] at h
      rw [List.cons_append, List.isPrefixOf]
      rcases Bool.and_eq_false_iff.mp h with h1 | h2
      · simp [h1]
      · simp [ih ys b h2]

/-- A list is a (Boolean) prefix of itself extended by anything. -/
lemma isPrefixOf_append_self : ∀ (a b : Str), a.isPrefixOf (a ++ b) = true := by
  intro a b
  induction a with
  | nil => simp [List.isPrefixOf]
  | cons x xs ih => simp [List.isPrefixOf, ih]

/-- The verb loop skips every non-matching verb. -/
lemma nounFirstGo_skip : ∀ (vs1 vs2 : List Str) (t : Str),
    (∀ w ∈ vs1, (w ++ [' ']).isPrefixOf t = false) →
    nounFirstGo (vs1 ++ vs2) t = nounFirstGo vs2 t := by
  intro vs1
  induction vs1 with
  | nil => intro vs2 t _; rfl
  | cons w ws ih =>
    intro vs2 t h
    have hw : (w ++ [' ']).isPrefixOf t = false := h w (by simp)
    rw [List.cons_append, nounFirstGo, if_neg (by simp [hw])]
    exact ih vs2 t fun v hv => h v (by simp [hv])

/-- `str.replace(old, new, 1)` on a string that starts with `old`. -/
lemma replace1_of_isPrefixOf (old new t : Str) (hne : old ≠ [])
    (h : old.isPrefixOf t = true) :
    replace1 old new t = new ++ t.drop old.length := by
  cases t with
  | nil =>
    cases old with
    | nil => exact absurd rfl hne
    | cons o os => simp [List.isPrefixOf] at h
  | cons c rest => rw [replace1, if_pos h]

/-- No verb-plus-space is a prefix of `a ++ b` when each mismatches
within `a`. -/
lemma any_verb_append_false (ps : List Str) (a b : Str)
    (h : ∀ p ∈ ps, ((p ++ [' ']).take a.length).isPrefixOf a = false) :
    (ps.any fun v => (v ++ [' ']).isPrefixOf (a ++ b)) = false := by
  rw [List.any_eq_false]
  intro p hp
  simp [take_isPrefixOf_false (p ++ [' ']) a b (h p hp)]

/-- The synonym branch of `noun_first_transform`, generically: if the
first matching verb `vc` has mapping `sync`, the output is
`sync ++ " " ++ rest` and starts with no banned verb (given that every
banned verb mismatches the concrete `sync ++ " "` within its length). -/
lemma nounFirst_syn_case (pre post : List Str) (vc sync rest : Str)
    (hdec : F5XC_BANNED_VERB_STARTS = pre ++ vc :: post)
    (hpre : ∀ w ∈ pre,
      ((w ++ [' ']).take (vc ++ [' ']).length).isPrefixOf (vc ++ [' ']) = false)
    (hlook : F5XC_SYNONYMS.lookup vc = some sync)
    (hsafe : ∀ w ∈ F5XC_BANNED_VERB_STARTS,
      ((w ++ [' ']).take (sync ++ [' ']).length).isPrefixOf (sync ++ [' ']) = false) :
    noun_first_transform (vc ++ ' ' :: rest) = sync ++ ' ' :: rest
    ∧ startsWithBannedVerb (noun_first_transform (vc ++ ' ' :: rest)) = false := by
  have hsplit : vc ++ ' ' :: rest = (vc ++ [' ']) ++ rest := by simp
  have htrans : noun_first_transform (vc ++ ' ' :: rest) = sync ++ ' ' :: rest := by
    rw [noun_first_transform, hdec, hsplit]
    rw [nounFirstGo_skip pre (vc :: post) _
      (fun w hw => take_isPrefixOf_false _ _ _ (hpre w hw))]
    rw [nounFirstGo, if_pos (isPrefixOf_append_self (vc ++ [' ']) rest), hlook]
    change replace1 (vc ++ [' ']) (sync ++ [' ']) ((vc ++ [' ']) ++ rest) = sync ++ ' ' :: rest
    rw [replace1_of_isPrefixOf _ _ _ (by simp) (isPrefixOf_append_self (vc ++ [' ']) rest)]
    rw [List.drop_left]
    simp
  refine ⟨htrans, ?_⟩
  rw [htrans, startsWithBannedVerb,
    show sync ++ ' ' :: rest = (sync ++ [' ']) ++ rest from by simp]
  exact any_verb_append_false _ _ _ hsafe

/-- The verbs whose dedicated noun-phrase mapping does not itself begin
with a banned verb: every synonym-branch verb except `Update` (whose
mapping "Update to" starts with `Update` again). -/
def SAFE_NOUN_VERBS : List (Str × Str) :=
  ([("Configure", "Configuration for"), ("Manage", "Management of"),
    ("Create", "Creation of"), ("Delete", "Deletion of"),
    ("Enable", "Control to enable"), ("Disable", "Control to disable")] :
    List (String × String)).map fun pr => (pr.1.toList, pr.2.toList)

/-- C4 counterexample: the noun-first rewrite of `"Update settings"` is
`"Update to settings"`, which still starts with the banned verb `Update`
followed by a space, and running the transform on its own output does
re-trigger a rewrite. -/
theorem c4_counterexample :
    noun_first_transform "Update settings".toList = "Update to settings".toList
    ∧ startsWithBannedVerb (noun_first_transform "Update settings".toList) = true
    ∧ noun_first_transform (noun_first_transform "Update settings".toList)
        ≠ noun_first_transform "Update settings".toList := by decide

/-- C4 (amended): for texts whose leading verb is one of the
noun-phrase-mapped verbs other than `Update` (Configure, Manage, Create,
Delete, Enable, Disable), the noun-first output never starts with a
banned leading verb followed by a space, so the transform cannot
re-trigger there; for `Update` (and for fallback rewrites whose
capitalized remainder itself starts with a banned verb) it can. -/
theorem c4_amended (v syn rest : Str) (hmem : (v, syn) ∈ SAFE_NOUN_VERBS) :
    noun_first_transform (v ++ ' ' :: rest) = syn ++ ' ' :: rest
    ∧ startsWithBannedVerb (noun_first_transform (v ++ ' ' :: rest)) = false := by
  simp only [SAFE_NOUN_VERBS, List.map_cons, List.map_nil, List.mem_cons,
    List.not_mem_nil, or_false, Prod.mk.injEq] at hmem
  rcases hmem with ⟨rfl, rfl⟩ | ⟨rfl, rfl⟩ | ⟨rfl, rfl⟩ | ⟨rfl, rfl⟩ |
    ⟨rfl, rfl⟩ | ⟨rfl, rfl⟩
  · exact nounFirst_syn_case (F5XC_BANNED_VERB_STARTS.take 0)
      (F5XC_BANNED_VERB_STARTS.drop 1) _ _ rest
      (by decide) (by decide) (by decide) (by decide)
  · exact nounFirst_syn_case (F5XC_BANNED_VERB_STARTS.take 1)
      (F5XC_BANNED_VERB_STARTS.drop 2) _ _ rest
      (by decide) (by decide) (by decide) (by decide)
  · exact nounFirst_syn_case (F5XC_BANNED_VERB_STARTS.take 2)
      (F5XC_BANNED_VERB_STARTS.drop 3) _ _ rest
      (by decide) (by decide) (by decide) (by decide)
  · exact nounFirst_syn_case (F5XC_BANNED_VERB_STARTS.take 3)
      (F5XC_BANNED_VERB_STARTS.drop 4) _ _ rest
      (by decide) (by decide) (by decide) (by decide)
  · exact nounFirst_syn_case (F5XC_BANNED_VERB_STARTS.take 7)
      (F5XC_BANNED_VERB_STARTS.drop 8) _ _ rest
      (by decide) (by decide) (by decide) (by decide)
  · exact nounFirst_syn_case (F5XC_BANNED_VERB_STARTS.take 8)
      (F5XC_BANNED_VERB_STARTS.drop 9) _ _ rest
      (by decide) (by decide) (by decide) (by decide)

/-- C4 witness: spec Scenario 6-style input for the `Configure` branch. -/
theorem c4_amended_witness :
    ("Configure".toList, "Configuration for".toList) ∈ SAFE_NOUN_VERBS
    ∧ noun_first_transform ("Configure".toList ++ ' ' :: "the load balancer".toList)
        = "Configuration for".toList ++ ' ' :: "the load balancer".toList
    ∧ startsWithBannedVerb
        (noun_first_transform ("Configure".toList ++ ' ' :: "the load balancer".toList))
        = false :=
  ⟨by decide,
    (c4_amended "Configure".toList "Configuration for".toList
      "the load balancer".toList (by decide)).1,
    (c4_amended "Configure".toList "Configuration for".toList
      "the load balancer".toList (by decide)).2⟩

/-! ## Claim C1 -/

/-- A short text within the 35-60 band with no rule hits. -/
def c1short : Str := "Network routing policy over gateway nodes".toList

/-- A short text within the 35-60 band that contains the banned term
`API` (five-layer invalid, but length-valid). -/
def c1shortBanned : Str := "Gateway API routing policy for nodes".toList

/-- A medium text within the 100-150 band with no rule hits. -/
def c1medium : Str :=
  "Gateway nodes forward traffic between service clusters and apply routing rules that balance request load across regions.".toList

/-- A long text within the 350-500 band with no rule hits. -/
def c1long : Str :=
  "Routing policies steer inbound connections toward healthy upstream nodes using weighted distribution tables. Health probes remove failing nodes from rotation until recovery checks pass. Connection draining preserves active sessions during maintenance windows, and regional failover shifts traffic when an entire zone reports degraded capacity over consecutive probe intervals.".toList

/-- Attempt 0 of the C1 collaborator: every tier inside its character
band, but the short tier contains a banned term. -/
def c1attempt1 : ResultMap :=
  [("short".toList, c1shortBanned), ("medium".toList, c1medium),
   ("long".toList, c1long)]

/-- Attempt 1 of the C1 collaborator: fully five-layer valid. -/
def c1attempt2 : ResultMap :=
  [("short".toList, c1short), ("medium".toList, c1medium),
   ("long".toList, c1long)]

/-- The C1 collaborator. -/
def c1gen : Nat → Option ResultMap := fun i =>
  if i = 0 then some c1attempt1 else if i = 1 then some c1attempt2 else none

/-- C1 counterexample: the adapter's loop does not score attempts with
the five-layer Batch Validator.  On attempt 0 the five-layer
`valid_count` is 2 (the short tier carries a banned term) while the
code's `_count_valid` is 3, so `generate` exits immediately with the
five-layer-invalid attempt-0 mapping after one attempt, whereas the
controller the claim describes would keep retrying and return the fully
valid attempt-1 mapping. -/
theorem c1_counterexample :
    fiveLayerValidCount (post_process c1attempt1) = 2
    ∧ count_valid (post_process c1attempt1) = 3
    ∧ f5xc_generate c1gen 3 false = (some (post_process c1attempt1), 1)
    ∧ spec_generate c1gen 3 false = (some (post_process c1attempt2), 2)
    ∧ f5xc_generate c1gen 3 false ≠ spec_generate c1gen 3 false :=
  ⟨by decide, by decide, by decide, by decide, by decide⟩

/-- C1 (amended): at every attempt of the retry loop — any attempt index
`i`, any remaining budget, any best-so-far state — if that attempt parses
and its post-processed result has `_count_valid` equal to 3 (the total
expected tiers, a count of tiers within their character bands), the loop
returns that attempt's post-processed result immediately, having consumed
`i + 1` attempts and spending none of the remaining retries.
`f5xc_generate gf r strict` is this loop started at attempt 0, so this
covers every generation attempt of every run; the five-layer Batch
Validator is not consulted anywhere in the loop. -/
theorem c1_amended (gf : Nat → Option ResultMap) (strict : Bool)
    (i remaining : Nat) (best : Option ResultMap) (bestCount : Nat)
    (raw : ResultMap) (hparse : gf i = some raw)
    (h3 : count_valid (post_process raw) = 3) :
    genLoop gf strict i (remaining + 1) best bestCount
      = (some (post_process raw), i + 1) := by
  have hne : raw ≠ [] := by
    intro h
    subst h
    exact absurd h3 (by decide)
  rw [genLoop, hparse]
  simp [hne, h3]

/-- C1 witness collaborator: parse failures at attempts 0 and 1, the
band-perfect mapping at attempt index 2. -/
def c1gen2 : Nat → Option ResultMap := fun i =>
  if i = 2 then some c1attempt1 else none

/-- C1 witness: the amended early-exit theorem applied mid-loop, at
attempt index 2 with 3 retries left and a non-trivial best-so-far state
untouched; the full 5-attempt `f5xc_generate` run reaches that state and
stops after 3 attempts. -/
theorem c1_amended_witness :
    c1gen2 2 = some c1attempt1
    ∧ count_valid (post_process c1attempt1) = 3
    ∧ genLoop c1gen2 false 2 3 none 0 = (some (post_process c1attempt1), 3)
    ∧ f5xc_generate c1gen2 5 false = (some (post_process c1attempt1), 3) :=
  ⟨rfl, by decide,
    c1_amended c1gen2 false 2 2 none 0 c1attempt1 rfl (by decide),
    by decide⟩
